import Mathlib

/-
Verification development for the diorama-mc ray tracer.

The Rust sources (src/main.rs, src/cube.rs, src/sphere.rs, src/material.rs,
src/texture.rs) are embedded shallowly over exact rational arithmetic.
Machine f32 arithmetic on +, -, *, /, min, max, powi, clamp and comparisons
is modelled by the corresponding exact operations on the rationals; the
transcendental / irrational f32 intrinsics (sqrt, powf with a non-integer
exponent, atan2, asin, tan, and the constant pi) are kept abstract as the
fields of a FloatOps record that every embedded function threads through,
so that a theorem quantifying over FloatOps covers every choice of those
primitives, and concrete witnesses instantiate them with an exact rational
square root evaluated only at perfect squares.

The repository files color.rs, ray_intersect.rs, light.rs, camera.rs and
framebuffer.rs are referenced by main.rs but are not part of the provided
sources; the structures Color, Intersect, Light, Camera and Framebuffer are
therefore modelled from the specification, and each carries a doc comment
saying so.
-/

/-- The f32 intrinsics used by the source that have no exact rational
counterpart.  Every embedded function that calls one of them takes a
FloatOps argument; theorems quantify over it. -/
structure FloatOps where
  sqrt : ℚ → ℚ
  powf : ℚ → ℚ → ℚ
  atan2 : ℚ → ℚ → ℚ
  asin : ℚ → ℚ
  tan : ℚ → ℚ
  pi : ℚ

/-- A concrete FloatOps used by witnesses and counterexamples.  Its sqrt
field agrees with the exact square root at every input on which a witness
or counterexample evaluates it (1, 4 and 16, all perfect squares); the
other intrinsics are never evaluated by them and are zero. -/
def opsQ : FloatOps :=
  ⟨fun q => if q = 1 then 1 else if q = 4 then 2 else if q = 16 then 4 else 0,
   fun _ _ => 0, fun _ _ => 0, fun _ => 0, fun _ => 0, 0⟩

/-- Rust's f32::clamp: min lo, max hi. -/
def rclamp (x lo hi : ℚ) : ℚ := min (max x lo) hi

/-- Rust's `as i32` cast from f32 (for in-range values): truncation toward
zero. -/
def ratTrunc (q : ℚ) : ℤ := if q < 0 then -((-q).floor) else q.floor

/-- Rust's f32::round for non-negative arguments (round half away from
zero, i.e. half up), combined with the `as usize` cast. -/
def roundNat (q : ℚ) : ℕ := (q + 1/2).floor.toNat

/-- Truncating `as usize` cast for non-negative arguments. -/
def truncNat (q : ℚ) : ℕ := q.floor.toNat

/-- nalgebra_glm::Vec3 over exact rationals. -/
structure Vec3 where
  x : ℚ
  y : ℚ
  z : ℚ
deriving DecidableEq

instance : Add Vec3 := ⟨fun a b => ⟨a.x + b.x, a.y + b.y, a.z + b.z⟩⟩
instance : Sub Vec3 := ⟨fun a b => ⟨a.x - b.x, a.y - b.y, a.z - b.z⟩⟩
instance : Neg Vec3 := ⟨fun a => ⟨-a.x, -a.y, -a.z⟩⟩
instance : HMul ℚ Vec3 Vec3 := ⟨fun s v => ⟨s * v.x, s * v.y, s * v.z⟩⟩
instance : HMul Vec3 ℚ Vec3 := ⟨fun v s => ⟨v.x * s, v.y * s, v.z * s⟩⟩
instance : HDiv Vec3 ℚ Vec3 := ⟨fun v s => ⟨v.x / s, v.y / s, v.z / s⟩⟩

/-- Vec3::dot. -/
def Vec3.dot (a b : Vec3) : ℚ := a.x * b.x + a.y * b.y + a.z * b.z

/-- Vec3::component_mul. -/
def Vec3.component_mul (a b : Vec3) : Vec3 := ⟨a.x * b.x, a.y * b.y, a.z * b.z⟩

/-- Vec3::magnitude = sqrt (v . v). -/
def Vec3.magnitude (ops : FloatOps) (v : Vec3) : ℚ := ops.sqrt (v.dot v)

/-- Vec3::normalize = v / magnitude v. -/
def Vec3.normalize (ops : FloatOps) (v : Vec3) : Vec3 := v / v.magnitude ops

/-- Modelled from the spec: color.rs is not among the provided sources.
Per the spec a color is an RGB triple whose channels are integers that can
leave the display range in intermediates ("Negative or out-of-range colors
are clamped, never wrapped"); packed 24-bit RGB on output. -/
structure Color where
  r : ℤ
  g : ℤ
  b : ℤ
deriving DecidableEq

/-- Color::new. -/
def Color.new (r g b : ℤ) : Color := ⟨r, g, b⟩

/-- Color::black. -/
def Color.black : Color := ⟨0, 0, 0⟩

/-- Modelled from the spec: channel-wise addition of colors. -/
instance : Add Color := ⟨fun a b => ⟨a.r + b.r, a.g + b.g, a.b + b.b⟩⟩

/-- Modelled from the spec: scaling a color by an f32 factor scales each
integer channel and casts back (truncation toward zero). -/
instance : HMul Color ℚ Color :=
  ⟨fun c s => ⟨ratTrunc ((c.r : ℚ) * s), ratTrunc ((c.g : ℚ) * s), ratTrunc ((c.b : ℚ) * s)⟩⟩

/-- Color::from_hex: unpack a 24-bit RGB value. -/
def Color.from_hex (n : ℕ) : Color := ⟨((n / 65536) % 256 : ℕ), ((n / 256) % 256 : ℕ), (n % 256 : ℕ)⟩

/-- Color::to_hex: pack the (display-range) channels into 24 bits. -/
def Color.to_hex (c : Color) : ℕ := c.r.toNat % 256 * 65536 + c.g.toNat % 256 * 256 + c.b.toNat % 256

/-- texture.rs: Texture — the decoded image data (id and the decoded
DynamicImage are irrelevant to the embedded queries and omitted; width,
height and the color array are carried). -/
structure Texture where
  width : ℕ
  height : ℕ
  color_array : List Color

/-- texture.rs: Texture::get_color — bounds-checked pixel fetch, magenta
0xFF00FF on out-of-range coordinates. -/
def Texture.get_color (t : Texture) (x y : ℕ) : Color :=
  if x < t.width ∧ y < t.height then t.color_array.getD (y * t.width + x) Color.black
  else Color.from_hex 0xFF00FF

/-- texture.rs: Texture::get_color_at_uv — clamp (u, v) to [0,1], scale by
(width-1, height-1) with v inverted, truncate, fetch. -/
def Texture.get_color_at_uv (t : Texture) (u v : ℚ) : Color :=
  let u := rclamp u 0 1
  let v := rclamp v 0 1
  let x := truncNat (u * ((t.width : ℚ) - 1))
  let y := truncNat ((1 - v) * ((t.height : ℚ) - 1))
  t.get_color x y

/-- material.rs: Material.  The four albedo components albedo[0..3] are the
fields albedo0..albedo3.  The emission field is referenced by main.rs but
absent from the provided material.rs; it is modelled from the spec
("optional emissive color (zero means non-emissive)"). -/
structure Material where
  diffuse : Color
  specular : ℚ
  albedo0 : ℚ
  albedo1 : ℚ
  albedo2 : ℚ
  albedo3 : ℚ
  refractive_index : ℚ
  has_texture : Bool
  texture : Option Texture
  emission : Color

/-- material.rs: Material::black. -/
def Material.black : Material :=
  ⟨Color.new 0 0 0, 0, 0, 0, 0, 0, 0, false, none, Color.black⟩

/-- The x pixel index computed by Material::get_diffuse_color:
round(clamp(u) * width), then clamped to width - 1. -/
def uvToX (t : Texture) (u : ℚ) : ℕ := min (roundNat (rclamp u 0 1 * (t.width : ℚ))) (t.width - 1)

/-- The y pixel index computed by Material::get_diffuse_color:
round((1 - clamp(v)) * height), then clamped to height - 1. -/
def uvToY (t : Texture) (v : ℚ) : ℕ :=
  min (roundNat ((1 - rclamp v 0 1) * (t.height : ℚ))) (t.height - 1)

/-- material.rs: Material::get_diffuse_color. -/
def Material.get_diffuse_color (m : Material) (u v : ℚ) : Color :=
  if m.has_texture then
    match m.texture with
    | some tex => tex.get_color (uvToX tex u) (uvToY tex v)
    | none => m.diffuse
  else m.diffuse

/-- Modelled from the spec: ray_intersect.rs is not among the provided
sources.  Intersection result: hit flag, hit point, surface normal,
distance along the ray, a snapshot of the hit material, and surface (u,v);
an empty sentinel represents no hit. -/
structure Intersect where
  is_intersecting : Bool
  point : Vec3
  normal : Vec3
  distance : ℚ
  material : Material
  u : ℚ
  v : ℚ

/-- Intersect::empty — the no-hit sentinel. -/
def Intersect.empty : Intersect := ⟨false, ⟨0, 0, 0⟩, ⟨0, 0, 0⟩, 0, Material.black, 0, 0⟩

/-- Intersect::new. -/
def Intersect.new (point normal : Vec3) (distance : ℚ) (material : Material) (u v : ℚ) :
    Intersect :=
  ⟨true, point, normal, distance, material, u, v⟩

/-- Modelled from the spec: light.rs is not among the provided sources.
Point position, color, scalar intensity. -/
structure Light where
  position : Vec3
  color : Color
  intensity : ℚ

/-- Modelled from the spec: camera.rs is not among the provided sources.
Eye position plus the derived orthonormal basis; basis_change maps a
camera-space direction into world space through the basis, a pure function
of the current state. -/
structure Camera where
  eye : Vec3
  right : Vec3
  up : Vec3
  forward : Vec3

/-- Camera::basis_change, modelled from the spec as the linear combination
of the basis vectors by the camera-space components. -/
def Camera.basis_change (c : Camera) (v : Vec3) : Vec3 :=
  v.x * c.right + v.y * c.up + v.z * c.forward

/-- Modelled from the spec: framebuffer.rs is not among the provided
sources.  A flat row-major width x height buffer of packed 24-bit RGB
values; a pixel write lands in its own slot and out-of-range writes are
ignored. -/
structure Framebuffer where
  width : ℕ
  height : ℕ
  buffer : ℕ → ℕ

/-- Framebuffer::point (with the current color passed directly): write the
packed color into the row-major slot of (x, y). -/
def Framebuffer.point (fb : Framebuffer) (x y : ℕ) (c : ℕ) : Framebuffer :=
  if x < fb.width ∧ y < fb.height then
    ⟨fb.width, fb.height, Function.update fb.buffer (y * fb.width + x) c⟩
  else fb

/-- cube.rs: Cube — min corner, max corner, material. -/
structure Cube where
  min : Vec3
  max : Vec3
  material : Material

/-- cube.rs: Cube::get_uv — texture-atlas UV for the face selected by the
normal (375x500 atlas, 3 columns, 4 rows). -/
def Cube.get_uv (c : Cube) (point normal : Vec3) : ℚ × ℚ :=
  let size := c.max - c.min
  let local_point := point - c.min
  let img_width : ℚ := 375
  let img_height : ℚ := 500
  let num_columns : ℚ := 3
  let num_rows : ℚ := 4
  let column_width := img_width / num_columns
  let row_height := img_height / num_rows
  let p :=
    if 0 < normal.x then
      (local_point.y / size.y * column_width + 2 * column_width,
       (1 - local_point.z / size.z) * row_height + row_height)
    else if normal.x < 0 then
      ((1 - local_point.y / size.y) * column_width,
       (1 - local_point.z / size.z) * row_height + row_height)
    else if 0 < normal.y then
      (local_point.x / size.x * column_width + column_width,
       local_point.z / size.z * row_height + 3 * row_height)
    else if normal.y < 0 then
      (local_point.x / size.x * column_width + column_width,
       local_point.z / size.z * row_height + row_height)
    else if 0 < normal.z then
      (local_point.x / size.x * column_width + column_width,
       (1 - local_point.y / size.y) * row_height)
    else
      (local_point.x / size.x * column_width + column_width,
       local_point.y / size.y * row_height + 2 * row_height)
  (p.1 / img_width, 1 - p.2 / img_height)

/-- The slab-test entry time of cube.rs: Cube::ray_intersect —
max over axes of the per-axis minimum of the two slab times. -/
def slabEnter (c : Cube) (ray_origin ray_direction : Vec3) : ℚ :=
  let inv_dir : Vec3 := ⟨1 / ray_direction.x, 1 / ray_direction.y, 1 / ray_direction.z⟩
  let tmin := (c.min - ray_origin).component_mul inv_dir
  let tmax := (c.max - ray_origin).component_mul inv_dir
  max (max (min tmin.x tmax.x) (min tmin.y tmax.y)) (min tmin.z tmax.z)

/-- The slab-test exit time of cube.rs: Cube::ray_intersect —
min over axes of the per-axis maximum of the two slab times. -/
def slabExit (c : Cube) (ray_origin ray_direction : Vec3) : ℚ :=
  let inv_dir : Vec3 := ⟨1 / ray_direction.x, 1 / ray_direction.y, 1 / ray_direction.z⟩
  let tmin := (c.min - ray_origin).component_mul inv_dir
  let tmax := (c.max - ray_origin).component_mul inv_dir
  min (min (max tmin.x tmax.x) (max tmin.y tmax.y)) (max tmin.z tmax.z)

/-- The face-normal selection of cube.rs: Cube::ray_intersect — test the
hit point against the six face planes with epsilon 1e-3 in x, y, z order;
(0, 0, 1) is the final fallback. -/
def cubeNormal (c : Cube) (point : Vec3) : Vec3 :=
  if |point.x - c.min.x| < 1/1000 then ⟨-1, 0, 0⟩
  else if |point.x - c.max.x| < 1/1000 then ⟨1, 0, 0⟩
  else if |point.y - c.min.y| < 1/1000 then ⟨0, -1, 0⟩
  else if |point.y - c.max.y| < 1/1000 then ⟨0, 1, 0⟩
  else if |point.z - c.min.z| < 1/1000 then ⟨0, 0, -1⟩
  else ⟨0, 0, 1⟩

/-- cube.rs: Cube::ray_intersect (slab test).  Exact rational semantics:
faithful to the source whenever every ray-direction component is nonzero
(the source relies on IEEE signed-infinity arithmetic when a component is
zero, which has no rational counterpart). -/
def Cube.ray_intersect (c : Cube) (ray_origin ray_direction : Vec3) : Intersect :=
  let t_enter := slabEnter c ray_origin ray_direction
  let t_exit := slabExit c ray_origin ray_direction
  if t_enter < t_exit ∧ 0 < t_exit then
    let point := ray_origin + ray_direction * t_enter
    let normal := cubeNormal c point
    let uv := c.get_uv point normal
    Intersect.new point normal t_enter c.material uv.1 uv.2
  else Intersect.empty

/-- sphere.rs: Sphere — center, radius, material. -/
structure Sphere where
  center : Vec3
  radius : ℚ
  material : Material

/-- sphere.rs: Sphere::get_uv — spherical UV of the direction from the
center to the hit point. -/
def Sphere.get_uv (ops : FloatOps) (s : Sphere) (point : Vec3) : ℚ × ℚ :=
  let normalized := (point - s.center) / s.radius
  (1/2 + ops.atan2 normalized.z normalized.x / (2 * ops.pi),
   1/2 - ops.asin normalized.y / ops.pi)

/-- The quadratic coefficient a = D . D of sphere.rs: Sphere::ray_intersect. -/
def sphereA (ray_direction : Vec3) : ℚ := ray_direction.dot ray_direction

/-- The quadratic coefficient b = 2 (O - C) . D of sphere.rs:
Sphere::ray_intersect. -/
def sphereB (s : Sphere) (ray_origin ray_direction : Vec3) : ℚ :=
  2 * (ray_origin - s.center).dot ray_direction

/-- The quadratic coefficient c = |O - C|^2 - r^2 of sphere.rs:
Sphere::ray_intersect. -/
def sphereCoeffC (s : Sphere) (ray_origin : Vec3) : ℚ :=
  (ray_origin - s.center).dot (ray_origin - s.center) - s.radius * s.radius

/-- The discriminant b^2 - 4 a c of sphere.rs: Sphere::ray_intersect. -/
def sphereDisc (s : Sphere) (ray_origin ray_direction : Vec3) : ℚ :=
  sphereB s ray_origin ray_direction * sphereB s ray_origin ray_direction -
    4 * sphereA ray_direction * sphereCoeffC s ray_origin

/-- The root (-b - sqrt disc) / (2 a) taken by sphere.rs:
Sphere::ray_intersect. -/
def sphereT (ops : FloatOps) (s : Sphere) (ray_origin ray_direction : Vec3) : ℚ :=
  (-sphereB s ray_origin ray_direction - ops.sqrt (sphereDisc s ray_origin ray_direction)) /
    (2 * sphereA ray_direction)

/-- The quadratic a t^2 + b t + c whose roots are the ray parameters at
which |O + tD - C|^2 = r^2. -/
def sphereQuad (s : Sphere) (ray_origin ray_direction : Vec3) (t : ℚ) : ℚ :=
  sphereA ray_direction * t ^ 2 + sphereB s ray_origin ray_direction * t +
    sphereCoeffC s ray_origin

/-- sphere.rs: Sphere::ray_intersect (quadratic test): coefficients of
|O + tD - C|^2 = r^2; hit only when the discriminant is positive and the
root (-b - sqrt disc) / (2a) is positive. -/
def Sphere.ray_intersect (ops : FloatOps) (s : Sphere) (ray_origin ray_direction : Vec3) :
    Intersect :=
  if 0 < sphereDisc s ray_origin ray_direction then
    let t := sphereT ops s ray_origin ray_direction
    if 0 < t then
      let point := ray_origin + ray_direction * t
      let normal := (point - s.center).normalize ops
      let distance := t
      let uv := s.get_uv ops point
      Intersect.new point normal distance s.material uv.1 uv.2
    else Intersect.empty
  else Intersect.empty

/-- main.rs: BIAS. -/
def BIAS : ℚ := 1/1000

/-- main.rs: SKYBOX_COLOR. -/
def SKYBOX_COLOR : Color := Color.new 69 142 228

/-- main.rs: AMBIENT_LIGHT_COLOR. -/
def AMBIENT_LIGHT_COLOR : Color := Color.new 50 50 50

/-- main.rs: AMBIENT_INTENSITY. -/
def AMBIENT_INTENSITY : ℚ := 3/10

/-- main.rs: offset_point — displace the hit point along the stored normal
by BIAS (the direction argument of the source is unused there too). -/
def offset_point (intersect : Intersect) (_direction : Vec3) : Vec3 :=
  let offset := intersect.normal * BIAS
  intersect.point + offset

/-- main.rs: reflect. -/
def reflect (incident normal : Vec3) : Vec3 :=
  incident - 2 * incident.dot normal * normal

/-- The discriminant k = 1 - eta^2 (1 - cos^2) computed inside main.rs:
refract, including its clamped-cosine and branch-dependent eta. -/
def refractK (incident normal : Vec3) (eta_t : ℚ) : ℚ :=
  let cosi := -(min (max (incident.dot normal) (-1)) 1)
  let n_cosi := if cosi < 0 then -cosi else cosi
  let eta := if cosi < 0 then 1 / eta_t else eta_t
  1 - eta * eta * (1 - n_cosi * n_cosi)

/-- main.rs: refract.  Note the source's branch structure: it returns the
mirror reflection when 0 < k and attempts the transmission formula
(including sqrt k) when k <= 0. -/
def refract (ops : FloatOps) (incident normal : Vec3) (eta_t : ℚ) : Vec3 :=
  let cosi := -(min (max (incident.dot normal) (-1)) 1)
  let n_cosi := if cosi < 0 then -cosi else cosi
  let eta := if cosi < 0 then 1 / eta_t else eta_t
  let n_normal := if cosi < 0 then -normal else normal
  let k := refractK incident normal eta_t
  if 0 < k then reflect incident n_normal
  else incident * eta + (eta * n_cosi - ops.sqrt k) * n_normal

/-- The normalized direction from the hit point to the light computed by
main.rs: cast_shadow. -/
def shadowLightDir (ops : FloatOps) (intersect : Intersect) (light : Light) : Vec3 :=
  (light.position - intersect.point).normalize ops

/-- The hit-point-to-light distance computed by main.rs: cast_shadow. -/
def lightDistance (ops : FloatOps) (intersect : Intersect) (light : Light) : ℚ :=
  (light.position - intersect.point).magnitude ops

/-- The bias-offset shadow-ray origin of main.rs: cast_shadow. -/
def shadowOrigin (ops : FloatOps) (intersect : Intersect) (light : Light) : Vec3 :=
  offset_point intersect (shadowLightDir ops intersect light)

/-- One object blocks the shadow ray: its intersection is a hit strictly
closer than the light. -/
def blocksShadow (ops : FloatOps) (intersect : Intersect) (light : Light) (o : Cube) : Prop :=
  (o.ray_intersect (shadowOrigin ops intersect light) (shadowLightDir ops intersect light)).is_intersecting = true ∧
  (o.ray_intersect (shadowOrigin ops intersect light) (shadowLightDir ops intersect light)).distance <
    lightDistance ops intersect light

instance (ops intersect light o) : Decidable (blocksShadow ops intersect light o) :=
  inferInstanceAs (Decidable (_ ∧ _))

/-- The scan loop of main.rs: cast_shadow — the shadow intensity of the
first blocking object, 0 if none blocks (the source loop breaks at the
first blocker, leaving the mutable intensity at its last assignment). -/
def shadowScan (so ldir : Vec3) (ldist : ℚ) : List Cube → ℚ
  | [] => 0
  | o :: rest =>
    let shadow_intersect := o.ray_intersect so ldir
    if shadow_intersect.is_intersecting = true ∧ shadow_intersect.distance < ldist then
      1/2 - min ((shadow_intersect.distance / ldist) ^ 2) 1
    else shadowScan so ldir ldist rest

/-- main.rs: cast_shadow. -/
def cast_shadow (ops : FloatOps) (intersect : Intersect) (light : Light)
    (objects : List Cube) : ℚ :=
  shadowScan (shadowOrigin ops intersect light) (shadowLightDir ops intersect light)
    (lightDistance ops intersect light) objects

/-- main.rs: get_skybox_color — equirectangular direction-to-UV sampling of
the skybox texture. -/
def get_skybox_color (ops : FloatOps) (ray_direction : Vec3) (skybox : Texture) : Color :=
  let dir := ray_direction.normalize ops
  let u := 1/2 + ops.atan2 dir.x dir.z / (2 * ops.pi)
  let v := 1/2 - ops.asin dir.y / ops.pi
  skybox.get_color_at_uv u v

/-- main.rs: clamp_color — each channel min 255 then max 0. -/
def clamp_color (color : Color) : Color :=
  Color.new (max (min color.r 255) 0) (max (min color.g 255) 0) (max (min color.b 255) 0)

/-- The nearest-hit linear scan of main.rs: cast_ray — fold with the
intersection record and the zbuffer (none modelling the initial f32
INFINITY). -/
def sceneNearestHit (objects : List Cube) (ray_origin ray_direction : Vec3) : Intersect :=
  (objects.foldl
    (fun acc object =>
      let i := object.ray_intersect ray_origin ray_direction
      let closer := match acc.2 with
        | none => true
        | some z => decide (i.distance < z)
      if i.is_intersecting && closer then (i, some i.distance) else acc)
    (Intersect.empty, none)).1

/-- The Schlick Fresnel reflectance computed inline in main.rs: cast_ray,
with the clamped cosine between the inverted normal and the incoming ray. -/
def fresnelReflectance (refractive_index : ℚ) (normal ray_direction : Vec3) : ℚ :=
  let cos_theta := -(min (max (normal.dot ray_direction) (-1)) 1)
  let r0 := ((1 - refractive_index) / (1 + refractive_index)) ^ 2
  rclamp (r0 + (1 - r0) * (1 - cos_theta) ^ 5) 0 1

/-- The hit branch of main.rs: cast_ray (ambient + per-light diffuse and
specular with shadow attenuation, the emissive contribution, the Fresnel
blend of the recursive reflection and refraction colors, the albedo
normalization) producing the final color before clamping.  The recursive
calls of the source are abstracted into the recurse argument. -/
def shadeHit (ops : FloatOps) (recurse : Vec3 → Vec3 → Color) (objects : List Cube)
    (lights : List Light) (intersect : Intersect) (ray_origin ray_direction : Vec3) : Color :=
  let ambient_light := AMBIENT_LIGHT_COLOR * AMBIENT_INTENSITY
  let total_light := lights.foldl
    (fun acc light =>
      let light_dir := (light.position - intersect.point).normalize ops
      let view_dir := (ray_origin - intersect.point).normalize ops
      let reflect_dir := (reflect (-light_dir) intersect.normal).normalize ops
      let shadow_intensity := cast_shadow ops intersect light objects
      let light_intensity := light.intensity * (1 - shadow_intensity)
      let diffuse_intensity := min (max (intersect.normal.dot light_dir) 0) 1
      let diffuse_color := intersect.material.get_diffuse_color intersect.u intersect.v
      let diffuse := diffuse_color * intersect.material.albedo0 * diffuse_intensity * light_intensity
      let specular_intensity := ops.powf (max (view_dir.dot reflect_dir) 0) intersect.material.specular
      let specular := light.color * intersect.material.albedo1 * specular_intensity * light_intensity
      acc + diffuse + specular)
    ambient_light
  let emission := intersect.material.emission * (1/2 : ℚ)
  let total_light :=
    if 0 < emission.r ∨ 0 < emission.g ∨ 0 < emission.b then
      let warm_tone := Color.new 255 180 100
      let distance := (ray_origin - intersect.point).magnitude ops
      let attenuated := 1 / (1 + 9/100 * distance + 4/125 * distance * distance)
      let emission := (emission * (1/5 : ℚ) + warm_tone * (1/2 : ℚ)) * attenuated
      total_light + emission
    else total_light
  let fresnel_reflectance :=
    fresnelReflectance intersect.material.refractive_index intersect.normal ray_direction
  let reflect_color :=
    if 0 < intersect.material.albedo2 then
      let reflect_dir := (reflect ray_direction intersect.normal).normalize ops
      let reflect_origin := offset_point intersect reflect_dir
      recurse reflect_origin reflect_dir
    else Color.black
  let refract_color :=
    if 0 < intersect.material.albedo3 then
      let refract_dir := refract ops ray_direction intersect.normal intersect.material.refractive_index
      let refract_origin := offset_point intersect refract_dir
      recurse refract_origin refract_dir
    else Color.black
  let final_reflectivity := fresnel_reflectance * intersect.material.albedo2
  let final_transparency := (1 - fresnel_reflectance) * intersect.material.albedo3
  let scaling_factor := 1 / (final_reflectivity + final_transparency +
    (1 - intersect.material.albedo2 - intersect.material.albedo3))
  total_light * ((1 - final_reflectivity - final_transparency) * scaling_factor) +
    reflect_color * final_reflectivity * scaling_factor +
    refract_color * final_transparency * scaling_factor

/-- One level of main.rs: cast_ray below the depth guard: nearest-hit scan,
skybox on miss, shading plus clamp on hit. -/
def castRayStep (ops : FloatOps) (recurse : Vec3 → Vec3 → Color) (ray_origin ray_direction : Vec3)
    (objects : List Cube) (lights : List Light) (skybox : Texture) : Color :=
  let intersect := sceneNearestHit objects ray_origin ray_direction
  if intersect.is_intersecting = true then
    clamp_color (shadeHit ops recurse objects lights intersect ray_origin ray_direction)
  else get_skybox_color ops ray_direction skybox

/-- Fuel-indexed form of main.rs: cast_ray.  The fuel is the structural
recursion device; cast_ray supplies 3 - depth, which keeps fuel-exhaustion
and the source's depth guard in lockstep, so the fuel-zero result is
exactly the guard's SKYBOX_COLOR. -/
def castRayFuel (ops : FloatOps) (objects : List Cube) (lights : List Light) (skybox : Texture) :
    ℕ → Vec3 → Vec3 → ℕ → Color
  | 0, _, _, _ => SKYBOX_COLOR
  | fuel + 1, ray_origin, ray_direction, depth =>
    if 3 ≤ depth then SKYBOX_COLOR
    else castRayStep ops
      (fun o d => castRayFuel ops objects lights skybox fuel o d (depth + 1))
      ray_origin ray_direction objects lights skybox

/-- main.rs: cast_ray. -/
def cast_ray (ops : FloatOps) (ray_origin ray_direction : Vec3) (objects : List Cube)
    (lights : List Light) (skybox : Texture) (depth : ℕ) : Color :=
  castRayFuel ops objects lights skybox (3 - depth) ray_origin ray_direction depth

/-- The read-only per-frame state the renderer shares across pixels. -/
structure RenderScene where
  ops : FloatOps
  objects : List Cube
  lights : List Light
  camera : Camera
  skybox : Texture
  width : ℕ
  height : ℕ

/-- The per-pixel color computation of main.rs: render — NDC mapping,
aspect and field-of-view correction, normalized camera-space direction,
basis change, cast_ray from the eye at depth 0.  A pure function of the
pixel coordinates and the shared read-only scene. -/
def renderPixel (s : RenderScene) (x y : ℕ) : Color :=
  let width : ℚ := s.width
  let height : ℚ := s.height
  let aspect := width / height
  let fov := s.ops.pi / 3
  let perspective_scale := s.ops.tan (fov / 2)
  let screen_x := 2 * (x : ℚ) / width - 1
  let screen_y := -(2 * (y : ℚ)) / height + 1
  let screen_x := screen_x * aspect * perspective_scale
  let screen_y := screen_y * perspective_scale
  let ray_direction := (Vec3.mk screen_x screen_y (-1)).normalize s.ops
  let rotated_direction := s.camera.basis_change ray_direction
  cast_ray s.ops s.camera.eye rotated_direction s.objects s.lights s.skybox 0

/-- The sequential write phase of main.rs: render, applied to an arbitrary
evaluation order of the pixel coordinates: each (x, y) slot receives the
packed color of its own pixel. -/
def applyPixels (s : RenderScene) (fb : Framebuffer) (order : List (ℕ × ℕ)) : Framebuffer :=
  order.foldl (fun acc p => acc.point p.1 p.2 (renderPixel s p.1 p.2).to_hex) fb

/-- The pixel enumeration of main.rs: render — (0..height) flat-mapped over
(0..width). -/
def pixelGrid (width height : ℕ) : List (ℕ × ℕ) :=
  (List.range height).flatMap (fun y => (List.range width).map (fun x => (x, y)))

/-- main.rs: render — compute every pixel of the grid and write the packed
colors into the framebuffer. -/
def render (s : RenderScene) (fb : Framebuffer) : Framebuffer :=
  applyPixels s fb (pixelGrid fb.width fb.height)

/-- A concrete 2x2 texture for the get_diffuse_color witness. -/
def texW : Texture :=
  ⟨2, 2, [Color.new 1 2 3, Color.new 4 5 6, Color.new 7 8 9, Color.new 10 11 12]⟩

/-- A concrete textured material for the get_diffuse_color witness. -/
def matW : Material :=
  ⟨Color.new 255 0 0, 1, 1, 0, 0, 0, 1, true, some texW, Color.black⟩

/-- A one-pixel dummy skybox texture for witnesses. -/
def texDummy : Texture := ⟨1, 1, [Color.black]⟩

/-- The unit cube [0,1]^3 with the black material. -/
def unitCube : Cube := ⟨⟨0, 0, 0⟩, ⟨1, 1, 1⟩, Material.black⟩

/-- The cube [1,2]^3 hit by the cast_ray witness ray from the origin. -/
def cubeW : Cube := ⟨⟨1, 1, 1⟩, ⟨2, 2, 2⟩, Material.black⟩

/-- Unit sphere at the origin; the counterexample ray starts at its
center. -/
def sphereInside : Sphere := ⟨⟨0, 0, 0⟩, 1, Material.black⟩

/-- Unit sphere ahead of the origin on the z axis, hit at t = 2 by the
witness ray. -/
def sphereAhead : Sphere := ⟨⟨0, 0, 3⟩, 1, Material.black⟩

/-- The hit record of the shadow counterexample: hit point at the origin,
unit normal (1,2,2)/3 pointing toward the light. -/
def shadowIt : Intersect := ⟨true, ⟨0, 0, 0⟩, ⟨1/3, 2/3, 2/3⟩, 1, Material.black, 0, 0⟩

/-- The light of the shadow counterexample, at distance 4 from the hit
point along (1,2,2)/3. -/
def shadowLight : Light := ⟨⟨4/3, 8/3, 8/3⟩, Color.new 255 255 255, 1⟩

/-- The blocking slab of the shadow counterexample: crossed by the shadow
ray at parameter 3199/1000, strictly between the hit point and the light. -/
def shadowBlocker : Cube := ⟨⟨16/15, -10, -10⟩, ⟨6/5, 10, 10⟩, Material.black⟩

/-- A trivial camera for the renderer witness. -/
def cameraW : Camera := ⟨⟨0, 0, 0⟩, ⟨1, 0, 0⟩, ⟨0, 1, 0⟩, ⟨0, 0, -1⟩⟩

/-- A tiny two-pixel scene for the renderer witness. -/
def sceneW : RenderScene := ⟨opsQ, [], [], cameraW, texDummy, 2, 1⟩

/-- A 2x1 framebuffer, initially all zero, for the renderer witness. -/
def fbW : Framebuffer := ⟨2, 1, fun _ => 0⟩

/-- Every channel lies in the display range [0, 255]. -/
def channelsInRange (c : Color) : Prop :=
  0 ≤ c.r ∧ c.r ≤ 255 ∧ 0 ≤ c.g ∧ c.g ≤ 255 ∧ 0 ≤ c.b ∧ c.b ≤ 255

section StructuralLemmas

theorem Vec3.sub_def (a b : Vec3) : a - b = ⟨a.x - b.x, a.y - b.y, a.z - b.z⟩ := rfl

theorem Vec3.add_def (a b : Vec3) : a + b = ⟨a.x + b.x, a.y + b.y, a.z + b.z⟩ := rfl

theorem Vec3.neg_def (a : Vec3) : -a = ⟨-a.x, -a.y, -a.z⟩ := rfl

theorem Vec3.qsmul_def (s : ℚ) (v : Vec3) : s * v = ⟨s * v.x, s * v.y, s * v.z⟩ := rfl

theorem Vec3.smulq_def (v : Vec3) (s : ℚ) : v * s = ⟨v.x * s, v.y * s, v.z * s⟩ := rfl

theorem Vec3.divq_def (v : Vec3) (s : ℚ) : v / s = ⟨v.x / s, v.y / s, v.z / s⟩ := rfl

theorem Color.cadd_def (a b : Color) : a + b = ⟨a.r + b.r, a.g + b.g, a.b + b.b⟩ := rfl

theorem Color.mulq_def (c : Color) (s : ℚ) :
    c * s = ⟨ratTrunc ((c.r : ℚ) * s), ratTrunc ((c.g : ℚ) * s), ratTrunc ((c.b : ℚ) * s)⟩ := rfl

theorem Intersect.new_is_intersecting (p n : Vec3) (t : ℚ) (m : Material) (u v : ℚ) :
    (Intersect.new p n t m u v).is_intersecting = true := rfl

theorem Intersect.empty_is_intersecting : Intersect.empty.is_intersecting = false := rfl

theorem clamp_color_channels (c : Color) :
    0 ≤ (clamp_color c).r ∧ (clamp_color c).r ≤ 255 ∧
    0 ≤ (clamp_color c).g ∧ (clamp_color c).g ≤ 255 ∧
    0 ≤ (clamp_color c).b ∧ (clamp_color c).b ≤ 255 := by
  simp only [clamp_color, Color.new]
  omega

end StructuralLemmas

/-- Claim C7: for every refractive index n > 0 and every surface normal and
incoming ray direction, the Schlick reflectance computed in cast_ray — with
r0 = ((1-n)/(1+n))^2 and the clamped cosine — lies in [0, 1]. -/
theorem fresnel_in_unit_range (n : ℚ) (normal ray_direction : Vec3) (_hn : 0 < n) :
    0 ≤ fresnelReflectance n normal ray_direction ∧
    fresnelReflectance n normal ray_direction ≤ 1 := by
  unfold fresnelReflectance rclamp
  exact ⟨le_min (le_max_right _ _) zero_le_one, min_le_right _ _⟩

/-- Witness for fresnel_in_unit_range at n = 2, a head-on incidence. -/
theorem fresnel_in_unit_range_witness :
    (0 : ℚ) < 2 ∧
    (0 ≤ fresnelReflectance 2 ⟨0, 0, 1⟩ ⟨0, 0, -1⟩ ∧
     fresnelReflectance 2 ⟨0, 0, 1⟩ ⟨0, 0, -1⟩ ≤ 1) :=
  ⟨by norm_num, fresnel_in_unit_range 2 ⟨0, 0, 1⟩ ⟨0, 0, -1⟩ (by norm_num)⟩

/-- Claim C6: on a textured material (width and height positive, as the
texture constructor asserts), get_diffuse_color returns a stored pixel of
the clamped, v-inverted, index-clamped lookup — the indices are in range,
so the magenta out-of-range fallback of Texture::get_color is never taken —
and on a non-textured material it returns the constant diffuse color. -/
theorem get_diffuse_color_spec (m : Material) (u v : ℚ) :
    (∀ t : Texture, m.has_texture = true → m.texture = some t →
        0 < t.width → 0 < t.height →
        (m.get_diffuse_color u v =
           t.color_array.getD (uvToY t v * t.width + uvToX t u) Color.black ∧
         uvToX t u < t.width ∧ uvToY t v < t.height))
    ∧ (m.has_texture = false → m.get_diffuse_color u v = m.diffuse) := by
  constructor
  · intro t ht htex hw hh
    have hx : uvToX t u < t.width :=
      lt_of_le_of_lt (min_le_right _ _) (Nat.sub_lt hw Nat.one_pos)
    have hy : uvToY t v < t.height :=
      lt_of_le_of_lt (min_le_right _ _) (Nat.sub_lt hh Nat.one_pos)
    refine ⟨?_, hx, hy⟩
    simp only [Material.get_diffuse_color, ht, htex, if_true]
    simp [Texture.get_color, hx, hy]
  · intro ht
    simp [Material.get_diffuse_color, ht]

/-- Witness for get_diffuse_color_spec with out-of-range UV (u = 2,
v = -3): the clamped lookup lands on a stored pixel. -/
theorem get_diffuse_color_spec_witness :
    matW.get_diffuse_color 2 (-3) =
      texW.color_array.getD (uvToY texW (-3) * texW.width + uvToX texW 2) Color.black ∧
    uvToX texW 2 < texW.width ∧ uvToY texW (-3) < texW.height :=
  (get_diffuse_color_spec matW 2 (-3)).1 texW rfl rfl (by norm_num [texW]) (by norm_num [texW])

/-- Claim C4 (amended): for nonzero-component ray directions (the zero
component case uses IEEE signed-infinity arithmetic, outside the rational
model) and a proper cube, ray_intersect is total, and reports a hit exactly
when the slab entry is before the exit and the exit is ahead of the origin;
the reported hit distance is the slab entry time — which is negative, not 0
or positive, whenever the origin is strictly inside (entry behind the
origin), as the counterexample shows. -/
theorem cube_ray_intersect_spec (c : Cube) (o d : Vec3)
    (_hx : d.x ≠ 0) (_hy : d.y ≠ 0) (_hz : d.z ≠ 0)
    (_hbox : c.min.x < c.max.x ∧ c.min.y < c.max.y ∧ c.min.z < c.max.z) :
    ((c.ray_intersect o d).is_intersecting = true ↔
      slabEnter c o d < slabExit c o d ∧ 0 < slabExit c o d)
    ∧ ((c.ray_intersect o d).is_intersecting = true →
        (c.ray_intersect o d).distance = slabEnter c o d) := by
  unfold Cube.ray_intersect
  by_cases h : slabEnter c o d < slabExit c o d ∧ 0 < slabExit c o d
  · simp [h, Intersect.new]
  · simp [h, Intersect.empty]

/-- Witness for cube_ray_intersect_spec: the unit cube [0,1]^3 and the
ray from (-1, 3/10, 3/10) along (1, 1/1000, 1/1000). -/
theorem cube_ray_intersect_spec_witness :
    ((unitCube.ray_intersect ⟨-1, 3/10, 3/10⟩ ⟨1, 1/1000, 1/1000⟩).is_intersecting = true ↔
      slabEnter unitCube ⟨-1, 3/10, 3/10⟩ ⟨1, 1/1000, 1/1000⟩ <
        slabExit unitCube ⟨-1, 3/10, 3/10⟩ ⟨1, 1/1000, 1/1000⟩ ∧
      0 < slabExit unitCube ⟨-1, 3/10, 3/10⟩ ⟨1, 1/1000, 1/1000⟩)
    ∧ ((unitCube.ray_intersect ⟨-1, 3/10, 3/10⟩ ⟨1, 1/1000, 1/1000⟩).is_intersecting = true →
       (unitCube.ray_intersect ⟨-1, 3/10, 3/10⟩ ⟨1, 1/1000, 1/1000⟩).distance =
         slabEnter unitCube ⟨-1, 3/10, 3/10⟩ ⟨1, 1/1000, 1/1000⟩) :=
  cube_ray_intersect_spec unitCube ⟨-1, 3/10, 3/10⟩ ⟨1, 1/1000, 1/1000⟩
    (by norm_num) (by norm_num) (by norm_num) (by norm_num [unitCube])

/-- Counterexample to claim C4 as stated: with the ray origin strictly
inside the unit cube, ray_intersect reports a hit whose distance is -1/2 —
neither positive nor zero, and not the empty sentinel although the slab
entry lies behind the origin. -/
theorem cube_inside_negative_distance :
    (unitCube.ray_intersect ⟨1/2, 1/2, 1/2⟩ ⟨1, 1, 1⟩).is_intersecting = true ∧
    (unitCube.ray_intersect ⟨1/2, 1/2, 1/2⟩ ⟨1, 1, 1⟩).distance = -(1/2) ∧
    ¬(0 < (-(1/2) : ℚ) ∨ (-(1/2) : ℚ) = 0) := by
  norm_num [unitCube, Cube.ray_intersect, slabEnter, slabExit, Vec3.component_mul,
    Intersect.new, cubeNormal, Cube.get_uv, Vec3.sub_def, Vec3.add_def, Vec3.smulq_def,
    min_def, max_def, abs_eq_max_neg]

theorem cubeNormal_cases (c : Cube) (p : Vec3) :
    (cubeNormal c p = ⟨-1, 0, 0⟩ ∨ cubeNormal c p = ⟨1, 0, 0⟩ ∨
     cubeNormal c p = ⟨0, -1, 0⟩ ∨ cubeNormal c p = ⟨0, 1, 0⟩ ∨
     cubeNormal c p = ⟨0, 0, -1⟩ ∨ cubeNormal c p = ⟨0, 0, 1⟩) ∧
    (cubeNormal c p).dot (cubeNormal c p) = 1 := by
  unfold cubeNormal
  split_ifs <;> simp [Vec3.dot]

/-- Claim C10: every hit reported by the cube's ray_intersect carries the
normal selected by the epsilon-1e-3 face tests in x, y, z order with
(0,0,1) as fallback (the cubeNormal chain), and that normal is one of the
six axis-aligned unit vectors — unit length with no normalization step. -/
theorem cube_normal_axis_aligned (c : Cube) (o d : Vec3)
    (h : (c.ray_intersect o d).is_intersecting = true) :
    (c.ray_intersect o d).normal = cubeNormal c ((c.ray_intersect o d).point) ∧
    ((c.ray_intersect o d).normal = ⟨-1, 0, 0⟩ ∨ (c.ray_intersect o d).normal = ⟨1, 0, 0⟩ ∨
     (c.ray_intersect o d).normal = ⟨0, -1, 0⟩ ∨ (c.ray_intersect o d).normal = ⟨0, 1, 0⟩ ∨
     (c.ray_intersect o d).normal = ⟨0, 0, -1⟩ ∨ (c.ray_intersect o d).normal = ⟨0, 0, 1⟩) ∧
    ((c.ray_intersect o d).normal).dot ((c.ray_intersect o d).normal) = 1 := by
  unfold Cube.ray_intersect at *
  by_cases hc : slabEnter c o d < slabExit c o d ∧ 0 < slabExit c o d
  · simp only [hc, and_self, if_true, Intersect.new]
    exact ⟨by trivial, (cubeNormal_cases c _).1, (cubeNormal_cases c _).2⟩
  · simp [hc, Intersect.empty] at h

/-- Witness for cube_normal_axis_aligned: the C4 witness ray hits the
x = 0 face of the unit cube; the selected normal is axis-aligned and unit. -/
theorem cube_normal_axis_aligned_witness :
    (unitCube.ray_intersect ⟨-1, 3/10, 3/10⟩ ⟨1, 1/1000, 1/1000⟩).normal =
      cubeNormal unitCube
        ((unitCube.ray_intersect ⟨-1, 3/10, 3/10⟩ ⟨1, 1/1000, 1/1000⟩).point) ∧
    ((unitCube.ray_intersect ⟨-1, 3/10, 3/10⟩ ⟨1, 1/1000, 1/1000⟩).normal = ⟨-1, 0, 0⟩ ∨
     (unitCube.ray_intersect ⟨-1, 3/10, 3/10⟩ ⟨1, 1/1000, 1/1000⟩).normal = ⟨1, 0, 0⟩ ∨
     (unitCube.ray_intersect ⟨-1, 3/10, 3/10⟩ ⟨1, 1/1000, 1/1000⟩).normal = ⟨0, -1, 0⟩ ∨
     (unitCube.ray_intersect ⟨-1, 3/10, 3/10⟩ ⟨1, 1/1000, 1/1000⟩).normal = ⟨0, 1, 0⟩ ∨
     (unitCube.ray_intersect ⟨-1, 3/10, 3/10⟩ ⟨1, 1/1000, 1/1000⟩).normal = ⟨0, 0, -1⟩ ∨
     (unitCube.ray_intersect ⟨-1, 3/10, 3/10⟩ ⟨1, 1/1000, 1/1000⟩).normal = ⟨0, 0, 1⟩) ∧
    ((unitCube.ray_intersect ⟨-1, 3/10, 3/10⟩ ⟨1, 1/1000, 1/1000⟩).normal).dot
      ((unitCube.ray_intersect ⟨-1, 3/10, 3/10⟩ ⟨1, 1/1000, 1/1000⟩).normal) = 1 :=
  cube_normal_axis_aligned unitCube ⟨-1, 3/10, 3/10⟩ ⟨1, 1/1000, 1/1000⟩
    (by norm_num [unitCube, Cube.ray_intersect, slabEnter, slabExit, Vec3.component_mul,
      Intersect.new, Vec3.sub_def, min_def, max_def])

/-- Claim C1 is a code bug: at the head-on entering ray (0,0,-1) against
the normal (0,0,1) with eta_t = 3/2, the discriminant k computed by refract
is 1 > 0 — Snell transmission is possible and total internal reflection
does not occur — yet refract returns the mirror reflection (0,0,1), because
the source reflects when 0 < k and attempts the transmission formula
(sqrt of a non-positive k, NaN for f32) when k <= 0, the reverse of the
claimed k <= 0 reflection condition. -/
theorem refract_reflects_on_positive_disc :
    0 < refractK ⟨0, 0, -1⟩ ⟨0, 0, 1⟩ (3/2) ∧
    refract opsQ ⟨0, 0, -1⟩ ⟨0, 0, 1⟩ (3/2) = reflect ⟨0, 0, -1⟩ ⟨0, 0, 1⟩ ∧
    reflect ⟨0, 0, -1⟩ ⟨0, 0, 1⟩ = ⟨0, 0, 1⟩ := by
  refine ⟨by norm_num [refractK, Vec3.dot, min_def, max_def], ?_, ?_⟩
  · norm_num [refract, refractK, Vec3.dot, min_def, max_def]
  · norm_num [reflect, Vec3.dot, Vec3.sub_def, Vec3.qsmul_def, Vec3.smulq_def]


/-- Claim C5 (amended): under an exact square root on the relevant values,
a positive discriminant and a positive taken root t = (-b - sqrt disc)/(2a)
give a hit at distance t, where t satisfies the quadratic |O + tD - C|^2 =
r^2 and is the smaller of its roots, with a unit normal parallel to
(point - center); and when no positive root exists the empty sentinel is
returned.  (The original claim fails when the smaller root is non-positive
but the larger is positive — origin inside the sphere — where the source
returns the empty sentinel; see the counterexample.) -/
theorem sphere_ray_intersect_spec (ops : FloatOps) (s : Sphere) (o d : Vec3)
    (ha : 0 < sphereA d) (hr : 0 < s.radius)
    (hrs : ops.sqrt (s.radius * s.radius) = s.radius)
    (hsq : 0 < sphereDisc s o d →
      ops.sqrt (sphereDisc s o d) ^ 2 = sphereDisc s o d ∧
      0 ≤ ops.sqrt (sphereDisc s o d)) :
    (0 < sphereDisc s o d → 0 < sphereT ops s o d →
       ((Sphere.ray_intersect ops s o d).is_intersecting = true ∧
        (Sphere.ray_intersect ops s o d).distance = sphereT ops s o d ∧
        sphereQuad s o d (sphereT ops s o d) = 0 ∧
        (∀ t2 : ℚ, sphereQuad s o d t2 = 0 → sphereT ops s o d ≤ t2) ∧
        ((Sphere.ray_intersect ops s o d).normal).dot
          ((Sphere.ray_intersect ops s o d).normal) = 1 ∧
        (Sphere.ray_intersect ops s o d).normal =
          (1 / s.radius) * ((Sphere.ray_intersect ops s o d).point - s.center)))
    ∧ ((∀ t2 : ℚ, 0 < t2 → sphereQuad s o d t2 ≠ 0) →
        (Sphere.ray_intersect ops s o d).is_intersecting = false) := by
  have hA : sphereA d ≠ 0 := ne_of_gt ha
  have hquadT : 0 < sphereDisc s o d → sphereQuad s o d (sphereT ops s o d) = 0 := by
    intro h1
    obtain ⟨hsq1, _⟩ := hsq h1
    have hd : ops.sqrt (sphereDisc s o d) ^ 2 =
        sphereB s o d * sphereB s o d - 4 * sphereA d * sphereCoeffC s o := hsq1
    unfold sphereQuad sphereT
    field_simp
    linear_combination 2 * sphereA d ^ 2 * hd
  constructor
  · intro h1 h2
    obtain ⟨hsq1, hsq2⟩ := hsq h1
    have hd : ops.sqrt (sphereDisc s o d) ^ 2 =
        sphereB s o d * sphereB s o d - 4 * sphereA d * sphereCoeffC s o := hsq1
    have hfact : ∀ t2 : ℚ, sphereQuad s o d t2 =
        sphereA d * (t2 - sphereT ops s o d) *
          (t2 - (-sphereB s o d + ops.sqrt (sphereDisc s o d)) / (2 * sphereA d)) := by
      intro t2
      unfold sphereQuad sphereT
      field_simp
      linear_combination sphereA d * hd
    have hroots : ∀ t2 : ℚ, sphereQuad s o d t2 = 0 → sphereT ops s o d ≤ t2 := by
      intro t2 h0
      rw [hfact t2] at h0
      rcases mul_eq_zero.mp h0 with h0' | hz
      · rcases mul_eq_zero.mp h0' with hA0 | hzt
        · exact absurd hA0 hA
        · have h : t2 = sphereT ops s o d := by
            have := sub_eq_zero.mp hzt
            linarith
          exact le_of_eq h.symm
      · have ht2 : t2 = (-sphereB s o d + ops.sqrt (sphereDisc s o d)) / (2 * sphereA d) := by
          have := sub_eq_zero.mp hz
          linarith
        rw [ht2]
        unfold sphereT
        have h2A : (0 : ℚ) < 2 * sphereA d := by linarith
        exact (div_le_div_iff_of_pos_right h2A).mpr (by linarith)
    have hhit : Sphere.ray_intersect ops s o d =
        Intersect.new (o + d * sphereT ops s o d)
          ((o + d * sphereT ops s o d - s.center).normalize ops)
          (sphereT ops s o d) s.material
          (Sphere.get_uv ops s (o + d * sphereT ops s o d)).1
          (Sphere.get_uv ops s (o + d * sphereT ops s o d)).2 := by
      unfold Sphere.ray_intersect
      rw [if_pos h1, if_pos h2]
    have hpc : Vec3.dot (o + d * sphereT ops s o d - s.center)
        (o + d * sphereT ops s o d - s.center) = s.radius * s.radius := by
      have hq := hquadT h1
      unfold sphereQuad sphereA sphereB sphereCoeffC at hq
      simp only [Vec3.dot, Vec3.sub_def, Vec3.add_def, Vec3.smulq_def] at hq ⊢
      linear_combination hq
    have hnorm : (o + d * sphereT ops s o d - s.center).normalize ops =
        (o + d * sphereT ops s o d - s.center) / s.radius := by
      unfold Vec3.normalize Vec3.magnitude
      rw [hpc, hrs]
    have hrne : s.radius ≠ 0 := ne_of_gt hr
    refine ⟨by rw [hhit]; rfl, by rw [hhit]; rfl, hquadT h1, hroots, ?_, ?_⟩
    · rw [hhit]
      show ((o + d * sphereT ops s o d - s.center).normalize ops).dot
        ((o + d * sphereT ops s o d - s.center).normalize ops) = 1
      rw [hnorm]
      simp only [Vec3.dot, Vec3.sub_def, Vec3.add_def, Vec3.smulq_def, Vec3.divq_def] at hpc ⊢
      field_simp
      linear_combination hpc
    · rw [hhit]
      show (o + d * sphereT ops s o d - s.center).normalize ops =
        (1 / s.radius) * (o + d * sphereT ops s o d - s.center)
      rw [hnorm]
      simp only [Vec3.divq_def, Vec3.qsmul_def, Vec3.mk.injEq]
      refine ⟨by ring, by ring, by ring⟩
  · intro hnp
    unfold Sphere.ray_intersect
    by_cases h1 : 0 < sphereDisc s o d
    · rw [if_pos h1]
      by_cases h2 : 0 < sphereT ops s o d
      · exact absurd (hquadT h1) (hnp _ h2)
      · rw [if_neg h2]
        rfl
    · rw [if_neg h1]
      rfl

/-- Counterexample to claim C5 as stated: the ray from the center of the
unit sphere along (0,0,1) analytically intersects the sphere at the
positive parameter t = 1 (a positive root of the quadratic), yet
ray_intersect returns the empty sentinel, because the root it takes,
(-b - sqrt disc)/(2a) = -1, is the smaller root and is non-positive. -/
theorem sphere_inside_returns_empty :
    sphereQuad sphereInside ⟨0, 0, 0⟩ ⟨0, 0, 1⟩ 1 = 0 ∧ (0 : ℚ) < 1 ∧
    (Sphere.ray_intersect opsQ sphereInside ⟨0, 0, 0⟩ ⟨0, 0, 1⟩).is_intersecting = false := by
  refine ⟨?_, by norm_num, ?_⟩
  · norm_num [sphereQuad, sphereA, sphereB, sphereCoeffC, sphereInside, Vec3.dot,
      Vec3.sub_def]
  · norm_num [Sphere.ray_intersect, sphereT, sphereDisc, sphereA, sphereB, sphereCoeffC,
      sphereInside, opsQ, Vec3.dot, Vec3.sub_def, Intersect.empty]

/-- Witness for sphere_ray_intersect_spec: the unit sphere at (0,0,3) hit
from the origin along (0,0,1) at t = 2 (disc = 4, sqrt exact). -/
theorem sphere_ray_intersect_spec_witness :
    (Sphere.ray_intersect opsQ sphereAhead ⟨0, 0, 0⟩ ⟨0, 0, 1⟩).is_intersecting = true ∧
    (Sphere.ray_intersect opsQ sphereAhead ⟨0, 0, 0⟩ ⟨0, 0, 1⟩).distance =
      sphereT opsQ sphereAhead ⟨0, 0, 0⟩ ⟨0, 0, 1⟩ ∧
    sphereQuad sphereAhead ⟨0, 0, 0⟩ ⟨0, 0, 1⟩ (sphereT opsQ sphereAhead ⟨0, 0, 0⟩ ⟨0, 0, 1⟩) = 0 ∧
    (∀ t2 : ℚ, sphereQuad sphereAhead ⟨0, 0, 0⟩ ⟨0, 0, 1⟩ t2 = 0 →
      sphereT opsQ sphereAhead ⟨0, 0, 0⟩ ⟨0, 0, 1⟩ ≤ t2) ∧
    ((Sphere.ray_intersect opsQ sphereAhead ⟨0, 0, 0⟩ ⟨0, 0, 1⟩).normal).dot
      ((Sphere.ray_intersect opsQ sphereAhead ⟨0, 0, 0⟩ ⟨0, 0, 1⟩).normal) = 1 ∧
    (Sphere.ray_intersect opsQ sphereAhead ⟨0, 0, 0⟩ ⟨0, 0, 1⟩).normal =
      (1 / sphereAhead.radius) *
        ((Sphere.ray_intersect opsQ sphereAhead ⟨0, 0, 0⟩ ⟨0, 0, 1⟩).point - sphereAhead.center) :=
  (sphere_ray_intersect_spec opsQ sphereAhead ⟨0, 0, 0⟩ ⟨0, 0, 1⟩
      (by norm_num [sphereA, Vec3.dot])
      (by norm_num [sphereAhead])
      (by norm_num [sphereAhead, opsQ])
      (by norm_num [sphereDisc, sphereA, sphereB, sphereCoeffC, sphereAhead, opsQ,
        Vec3.dot, Vec3.sub_def])).1
    (by norm_num [sphereDisc, sphereA, sphereB, sphereCoeffC, sphereAhead, Vec3.dot,
      Vec3.sub_def])
    (by norm_num [sphereT, sphereDisc, sphereA, sphereB, sphereCoeffC, sphereAhead, opsQ,
      Vec3.dot, Vec3.sub_def])

/-- Claim C2 (amended): cast_shadow returns 0 when no object blocks the
bias-offset shadow ray; when the first blocker in scan order lies closer
than the light it returns 0.5 - min(1, (blockerDistance/lightDistance)^2)
and stops there (the objects after it do not affect the result); and when
that blocker lies strictly between the hit point and the light the result
lies strictly between -0.5 and 0.5.  (The original claim's lower bound 0 is
wrong: for distance ratios above sqrt(1/2) the intensity is negative, as
the counterexample shows.) -/
theorem cast_shadow_spec (ops : FloatOps) (intersect : Intersect) (light : Light) :
    (∀ objects : List Cube, (∀ o ∈ objects, ¬ blocksShadow ops intersect light o) →
      cast_shadow ops intersect light objects = 0)
    ∧ (∀ (pre post : List Cube) (b : Cube),
        (∀ o ∈ pre, ¬ blocksShadow ops intersect light o) →
        blocksShadow ops intersect light b →
        cast_shadow ops intersect light (pre ++ b :: post) =
          1/2 - min (((b.ray_intersect (shadowOrigin ops intersect light)
              (shadowLightDir ops intersect light)).distance /
            lightDistance ops intersect light) ^ 2) 1)
    ∧ (∀ (pre post : List Cube) (b : Cube),
        (∀ o ∈ pre, ¬ blocksShadow ops intersect light o) →
        blocksShadow ops intersect light b →
        0 < (b.ray_intersect (shadowOrigin ops intersect light)
              (shadowLightDir ops intersect light)).distance →
        (-(1/2) < cast_shadow ops intersect light (pre ++ b :: post) ∧
         cast_shadow ops intersect light (pre ++ b :: post) < 1/2)) := by
  have h1 : ∀ objects : List Cube, (∀ o ∈ objects, ¬ blocksShadow ops intersect light o) →
      cast_shadow ops intersect light objects = 0 := by
    intro objects
    unfold cast_shadow
    induction objects with
    | nil => intro _; rfl
    | cons o rest ih =>
      intro h
      have ho : ¬ blocksShadow ops intersect light o := h o (List.mem_cons_self o rest)
      unfold blocksShadow at ho
      simp only [shadowScan]
      rw [if_neg ho]
      exact ih fun o2 ho2 => h o2 (List.mem_cons_of_mem _ ho2)
  have h2 : ∀ (pre post : List Cube) (b : Cube),
      (∀ o ∈ pre, ¬ blocksShadow ops intersect light o) →
      blocksShadow ops intersect light b →
      cast_shadow ops intersect light (pre ++ b :: post) =
        1/2 - min (((b.ray_intersect (shadowOrigin ops intersect light)
            (shadowLightDir ops intersect light)).distance /
          lightDistance ops intersect light) ^ 2) 1 := by
    intro pre post b
    unfold cast_shadow
    induction pre with
    | nil =>
      intro _ hb
      unfold blocksShadow at hb
      simp only [List.nil_append, shadowScan]
      rw [if_pos hb]
    | cons o pre ih =>
      intro h hb
      have ho : ¬ blocksShadow ops intersect light o := h o (List.mem_cons_self o pre)
      unfold blocksShadow at ho
      simp only [List.cons_append, shadowScan]
      rw [if_neg ho]
      exact ih (fun o2 ho2 => h o2 (List.mem_cons_of_mem _ ho2)) hb
  refine ⟨h1, h2, ?_⟩
  intro pre post b h hb hd
  rw [h2 pre post b h hb]
  have hD : (b.ray_intersect (shadowOrigin ops intersect light)
      (shadowLightDir ops intersect light)).distance < lightDistance ops intersect light := hb.2
  have hDpos : 0 < lightDistance ops intersect light := lt_trans hd hD
  have hr0 : 0 < (b.ray_intersect (shadowOrigin ops intersect light)
      (shadowLightDir ops intersect light)).distance / lightDistance ops intersect light :=
    div_pos hd hDpos
  have hr1 : (b.ray_intersect (shadowOrigin ops intersect light)
      (shadowLightDir ops intersect light)).distance / lightDistance ops intersect light < 1 :=
    (div_lt_one hDpos).mpr hD
  have hsq : ((b.ray_intersect (shadowOrigin ops intersect light)
      (shadowLightDir ops intersect light)).distance / lightDistance ops intersect light) ^ 2 < 1 :=
    pow_lt_one₀ (le_of_lt hr0) hr1 (by norm_num)
  have hsq0 : 0 < ((b.ray_intersect (shadowOrigin ops intersect light)
      (shadowLightDir ops intersect light)).distance / lightDistance ops intersect light) ^ 2 :=
    pow_pos hr0 2
  rw [min_eq_left (le_of_lt hsq)]
  constructor <;> linarith

/-- Counterexample to claim C2 as stated: a blocker strictly between the
hit point and the light (distance 3199/1000 of light distance 4) makes
cast_shadow return -2233601/16000000 < 0, not a value strictly between 0
and 0.5. -/
theorem cast_shadow_neg_intensity :
    0 < (shadowBlocker.ray_intersect (shadowOrigin opsQ shadowIt shadowLight)
          (shadowLightDir opsQ shadowIt shadowLight)).distance ∧
    (shadowBlocker.ray_intersect (shadowOrigin opsQ shadowIt shadowLight)
          (shadowLightDir opsQ shadowIt shadowLight)).distance <
      lightDistance opsQ shadowIt shadowLight ∧
    cast_shadow opsQ shadowIt shadowLight [shadowBlocker] = -(2233601/16000000) ∧
    (-(2233601/16000000) : ℚ) < 0 := by
  norm_num [cast_shadow, shadowScan, shadowOrigin, shadowLightDir, lightDistance,
    offset_point, Vec3.normalize, Vec3.magnitude, Vec3.dot, opsQ, Cube.ray_intersect,
    slabEnter, slabExit, Vec3.component_mul, cubeNormal, Cube.get_uv, Intersect.new,
    Vec3.sub_def, Vec3.add_def, Vec3.smulq_def, Vec3.divq_def, Vec3.qsmul_def, BIAS,
    min_def, max_def, abs_eq_max_neg, shadowIt, shadowLight, shadowBlocker, Material.black]

set_option maxHeartbeats 1000000 in
/-- Witness for cast_shadow_spec: its strict-bounds part applied to the
concrete blocker scene. -/
theorem cast_shadow_spec_witness :
    -(1/2) < cast_shadow opsQ shadowIt shadowLight [shadowBlocker] ∧
    cast_shadow opsQ shadowIt shadowLight [shadowBlocker] < 1/2 :=
  (cast_shadow_spec opsQ shadowIt shadowLight).2.2 [] [] shadowBlocker
    (by simp)
    (by unfold blocksShadow
        constructor
        · norm_num [shadowOrigin, shadowLightDir, lightDistance, offset_point,
            Vec3.normalize, Vec3.magnitude, Vec3.dot, opsQ, Cube.ray_intersect, slabEnter,
            slabExit, Vec3.component_mul, cubeNormal, Cube.get_uv, Intersect.new,
            Vec3.sub_def, Vec3.add_def, Vec3.smulq_def, Vec3.divq_def, Vec3.qsmul_def,
            BIAS, min_def, max_def, abs_eq_max_neg, shadowIt, shadowLight, shadowBlocker]
        · norm_num [shadowOrigin, shadowLightDir, lightDistance, offset_point,
            Vec3.normalize, Vec3.magnitude, Vec3.dot, opsQ, Cube.ray_intersect, slabEnter,
            slabExit, Vec3.component_mul, cubeNormal, Cube.get_uv, Intersect.new,
            Vec3.sub_def, Vec3.add_def, Vec3.smulq_def, Vec3.divq_def, Vec3.qsmul_def,
            BIAS, min_def, max_def, abs_eq_max_neg, shadowIt, shadowLight, shadowBlocker])
    (by norm_num [shadowOrigin, shadowLightDir, lightDistance, offset_point,
        Vec3.normalize, Vec3.magnitude, Vec3.dot, opsQ, Cube.ray_intersect, slabEnter,
        slabExit, Vec3.component_mul, cubeNormal, Cube.get_uv, Intersect.new,
        Vec3.sub_def, Vec3.add_def, Vec3.smulq_def, Vec3.divq_def, Vec3.qsmul_def,
        BIAS, min_def, max_def, abs_eq_max_neg, shadowIt, shadowLight, shadowBlocker])

/-- Claim C3: cast_ray called at depth >= MAX_DEPTH (= 3) returns
SKYBOX_COLOR directly, before any scene scan; a call at depth
MAX_DEPTH - 1 = 2 equals one shading step in which every recursive call has
been replaced by the constant environment color (it never recurses
further); and the fuel-indexed recursion is insensitive to any fuel budget
of at least 3 - depth, i.e. the computation terminates within the depth
bound (cast_ray itself is a total Lean function). -/
theorem cast_ray_depth_bound :
    (∀ (ops : FloatOps) (o d : Vec3) (objects : List Cube) (lights : List Light)
        (skybox : Texture) (depth : ℕ), 3 ≤ depth →
        cast_ray ops o d objects lights skybox depth = SKYBOX_COLOR)
    ∧ (∀ (ops : FloatOps) (o d : Vec3) (objects : List Cube) (lights : List Light)
        (skybox : Texture),
        cast_ray ops o d objects lights skybox 2 =
          castRayStep ops (fun _ _ => SKYBOX_COLOR) o d objects lights skybox)
    ∧ (∀ (ops : FloatOps) (objects : List Cube) (lights : List Light) (skybox : Texture)
        (f1 f2 : ℕ) (o d : Vec3) (depth : ℕ), 3 ≤ f1 + depth → 3 ≤ f2 + depth →
        castRayFuel ops objects lights skybox f1 o d depth =
          castRayFuel ops objects lights skybox f2 o d depth) := by
  refine ⟨?_, ?_, ?_⟩
  · intro ops o d objects lights skybox depth h
    unfold cast_ray
    rw [Nat.sub_eq_zero_of_le h]
    rfl
  · intro ops o d objects lights skybox
    rfl
  · intro ops objects lights skybox f1
    induction f1 with
    | zero =>
      intro f2 o d depth h1 h2
      have hd : 3 ≤ depth := by omega
      cases f2 with
      | zero => rfl
      | succ m =>
        show SKYBOX_COLOR = _
        simp only [castRayFuel]
        rw [if_pos hd]
    | succ n ih =>
      intro f2 o d depth h1 h2
      cases f2 with
      | zero =>
        have hd : 3 ≤ depth := by omega
        simp only [castRayFuel]
        rw [if_pos hd]
      | succ m =>
        simp only [castRayFuel]
        by_cases hd : 3 ≤ depth
        · rw [if_pos hd, if_pos hd]
        · rw [if_neg hd, if_neg hd]
          congr 1
          funext o2 d2
          exact ih m o2 d2 (depth + 1) (by omega) (by omega)

/-- Witness for cast_ray_depth_bound: a depth-4 call returns the
environment color. -/
theorem cast_ray_depth_bound_witness :
    3 ≤ 4 ∧ cast_ray opsQ ⟨0, 0, 0⟩ ⟨0, 0, 1⟩ [] [] texDummy 4 = SKYBOX_COLOR :=
  ⟨by norm_num, cast_ray_depth_bound.1 opsQ ⟨0, 0, 0⟩ ⟨0, 0, 1⟩ [] [] texDummy 4 (by norm_num)⟩

/-- Claim C8: after a hit (and below the depth bound), cast_ray returns
exactly clamp_color of the shading combination (ambient + per-light
diffuse/specular, emissive term, and the Fresnel-weighted, albedo-scaled
blend of the recursive reflection and refraction colors), so each channel
of the returned color lies in [0, 255]; and clamp_color maps any
out-of-range channel to the range boundary — a clamp, never a wrap. -/
theorem cast_ray_clamped_output :
    (∀ (ops : FloatOps) (o d : Vec3) (objects : List Cube) (lights : List Light)
        (skybox : Texture) (depth : ℕ), depth < 3 →
        (sceneNearestHit objects o d).is_intersecting = true →
        (cast_ray ops o d objects lights skybox depth =
           clamp_color (shadeHit ops
             (fun o2 d2 => cast_ray ops o2 d2 objects lights skybox (depth + 1))
             objects lights (sceneNearestHit objects o d) o d) ∧
         channelsInRange (cast_ray ops o d objects lights skybox depth)))
    ∧ (∀ c : Color, clamp_color c =
        ⟨if c.r < 0 then 0 else if 255 < c.r then 255 else c.r,
         if c.g < 0 then 0 else if 255 < c.g then 255 else c.g,
         if c.b < 0 then 0 else if 255 < c.b then 255 else c.b⟩) := by
  constructor
  · intro ops o d objects lights skybox depth hdepth hhit
    have hk : 3 - depth = (2 - depth) + 1 := by omega
    have hstep : cast_ray ops o d objects lights skybox depth =
        castRayStep ops
          (fun o2 d2 => castRayFuel ops objects lights skybox (2 - depth) o2 d2 (depth + 1))
          o d objects lights skybox := by
      unfold cast_ray
      rw [hk]
      simp only [castRayFuel]
      rw [if_neg (by omega)]
    have hrec : (fun o2 d2 =>
        castRayFuel ops objects lights skybox (2 - depth) o2 d2 (depth + 1)) =
        (fun o2 d2 => cast_ray ops o2 d2 objects lights skybox (depth + 1)) := by
      funext o2 d2
      unfold cast_ray
      have h32 : 3 - (depth + 1) = 2 - depth := by omega
      rw [h32]
    rw [hstep, hrec]
    unfold castRayStep
    rw [if_pos hhit]
    refine ⟨rfl, ?_⟩
    unfold channelsInRange
    exact clamp_color_channels _
  · intro c
    unfold clamp_color Color.new
    simp only [Color.mk.injEq]
    refine ⟨by omega, by omega, by omega⟩

/-- Witness for cast_ray_clamped_output: a depth-0 ray from the origin
hitting the cube [1,2]^3 with no lights. -/
theorem cast_ray_clamped_output_witness :
    (0 : ℕ) < 3 ∧
    (sceneNearestHit [cubeW] ⟨0, 0, 0⟩ ⟨1, 1, 1⟩).is_intersecting = true ∧
    (cast_ray opsQ ⟨0, 0, 0⟩ ⟨1, 1, 1⟩ [cubeW] [] texDummy 0 =
       clamp_color (shadeHit opsQ
         (fun o2 d2 => cast_ray opsQ o2 d2 [cubeW] [] texDummy (0 + 1))
         [cubeW] [] (sceneNearestHit [cubeW] ⟨0, 0, 0⟩ ⟨1, 1, 1⟩) ⟨0, 0, 0⟩ ⟨1, 1, 1⟩) ∧
     channelsInRange (cast_ray opsQ ⟨0, 0, 0⟩ ⟨1, 1, 1⟩ [cubeW] [] texDummy 0)) :=
  ⟨by norm_num,
   by norm_num [sceneNearestHit, List.foldl, Cube.ray_intersect, slabEnter, slabExit,
     Vec3.component_mul, Intersect.new, Intersect.empty, cubeW, Vec3.sub_def, Vec3.add_def,
     Vec3.smulq_def, min_def, max_def, cubeNormal, Cube.get_uv, Material.black,
     abs_eq_max_neg],
   cast_ray_clamped_output.1 opsQ ⟨0, 0, 0⟩ ⟨1, 1, 1⟩ [cubeW] [] texDummy 0 (by norm_num)
     (by norm_num [sceneNearestHit, List.foldl, Cube.ray_intersect, slabEnter, slabExit,
       Vec3.component_mul, Intersect.new, Intersect.empty, cubeW, Vec3.sub_def, Vec3.add_def,
       Vec3.smulq_def, min_def, max_def, cubeNormal, Cube.get_uv, Material.black,
       abs_eq_max_neg])⟩

/-- Distinct in-range pixels occupy distinct row-major slots. -/
theorem slot_ne {w : ℕ} {x1 y1 x2 y2 : ℕ} (h1 : x1 < w) (h2 : x2 < w)
    (hne : (x1, y1) ≠ (x2, y2)) : y1 * w + x1 ≠ y2 * w + x2 := by
  intro h
  apply hne
  have hy : y1 = y2 := by
    rcases Nat.lt_trichotomy y1 y2 with hlt | heq | hgt
    · exfalso
      have hle : (y1 + 1) * w ≤ y2 * w := Nat.mul_le_mul_right w hlt
      have heq1 : (y1 + 1) * w = y1 * w + w := by ring
      rw [heq1] at hle
      omega
    · exact heq
    · exfalso
      have hle : (y2 + 1) * w ≤ y1 * w := Nat.mul_le_mul_right w hgt
      have heq2 : (y2 + 1) * w = y2 * w + w := by ring
      rw [heq2] at hle
      omega
  subst hy
  have hx : x1 = x2 := by omega
  subst hx
  rfl

/-- Writing two pixels whose colors are functions of their own coordinates
commutes: same pixel means same write, distinct in-range pixels write
disjoint slots, and out-of-range writes are no-ops. -/
theorem fb_point_comm (f : ℕ × ℕ → ℕ) (fb : Framebuffer) (p q : ℕ × ℕ) :
    (fb.point p.1 p.2 (f p)).point q.1 q.2 (f q) =
    (fb.point q.1 q.2 (f q)).point p.1 p.2 (f p) := by
  by_cases hpq : p = q
  · subst hpq
    rfl
  · unfold Framebuffer.point
    by_cases hp : p.1 < fb.width ∧ p.2 < fb.height
    · by_cases hq : q.1 < fb.width ∧ q.2 < fb.height
      · have hne : p.2 * fb.width + p.1 ≠ q.2 * fb.width + q.1 := by
          apply slot_ne hp.1 hq.1
          intro hc
          apply hpq
          cases p
          cases q
          simp only [Prod.mk.injEq] at hc
          simp [hc.1, hc.2]
        simp only [hp, hq, and_self, if_true]
        simp [Function.update_comm hne]
      · simp [hp, hq]
    · by_cases hq : q.1 < fb.width ∧ q.2 < fb.height
      · simp [hp, hq]
      · simp [hp, hq]

/-- Claim C9: the pixel color computed by render is a pure function of the
pixel coordinates and the shared read-only scene (renderPixel), and the
final framebuffer is insensitive to the order in which the pixel writes are
applied: any two permutations of the evaluation order produce identical
framebuffers. -/
theorem render_order_insensitive :
    (∀ (s : RenderScene) (fb : Framebuffer),
        render s fb = applyPixels s fb (pixelGrid fb.width fb.height))
    ∧ (∀ (s : RenderScene) (fb : Framebuffer) (l1 l2 : List (ℕ × ℕ)),
        l1.Perm l2 → applyPixels s fb l1 = applyPixels s fb l2) := by
  constructor
  · intro s fb
    rfl
  · intro s fb l1 l2 hperm
    unfold applyPixels
    exact hperm.foldl_eq'
      (fun p _ q _ acc => fb_point_comm (fun r => (renderPixel s r.1 r.2).to_hex) acc p q) fb

/-- Witness for render_order_insensitive: the two orders of a 2x1 grid. -/
theorem render_order_insensitive_witness :
    applyPixels sceneW fbW [(0, 0), (1, 0)] = applyPixels sceneW fbW [(1, 0), (0, 0)] :=
  render_order_insensitive.2 sceneW fbW [(0, 0), (1, 0)] [(1, 0), (0, 0)]
    (List.Perm.swap (1, 0) (0, 0) [])
